import Mathlib

/-!
Verification of the facerateAI scoring engine.

The repository contains two copies of the scoring pipeline:
* `src/lib/analyzeFace.ts` — the Basic profile (4 facets);
* `src/unnamed/part_000` — the Extended profile (10 facets, echoes landmarks).

Both are pure pipelines from a landmark keypoint sequence (an ordered list of
2D pixel-space points indexed by the MediaPipe FaceMesh topology) and a
quality-metrics record to an analysis result.  We embed them shallowly:
JavaScript numbers become real numbers, `Math.round` becomes
`jsRound x = ⌊x + 1/2⌋` (JS rounds half toward +∞), array indexing
`keypoints[idx]` (which throws a TypeError when `idx` is out of range, because
`undefined.x` is an error) becomes an `Option`-valued lookup, and the whole
analysis returns `none` exactly when the source would throw during the
landmark-mapping block.  The detector call and `getQualityMetrics` are external
collaborators: the quality record is taken as an input parameter.
-/

noncomputable section

namespace FaceRate

/-- A 2D landmark point in image-pixel space. -/
structure Point where
  x : ℝ
  y : ℝ

/-- Image quality statistics supplied by the external quality analyzer. -/
structure QualityMetrics where
  sharpness : ℝ
  brightness : ℝ
  contrast : ℝ

/-- `clamp(x, a, b) = Math.max(a, Math.min(x, b))` — both source files, line 6. -/
def clamp (x a b : ℝ) : ℝ := max a (min x b)

/-- `norm(x, min, max) = clamp(((x - min) / (max - min)) * 100, 0, 100)` —
both source files, line 7. -/
def norm (x lo hi : ℝ) : ℝ := clamp ((x - lo) / (hi - lo) * 100) 0 100

/-- Euclidean distance, `dist(p1, p2)` — both source files, lines 8-9. -/
def dist (p1 p2 : Point) : ℝ :=
  Real.sqrt ((p1.x - p2.x) ^ 2 + (p1.y - p2.y) ^ 2)

/-- JavaScript `Math.round`: round half toward positive infinity. -/
def jsRound (x : ℝ) : ℤ := ⌊x + 1 / 2⌋

/-- Rounding half away from zero, as the specification's stated rounding
policy ("round half away from zero", spec §4.3).  This is *not* what
`Math.round` does at negative half-integers; it is defined here only to be
compared against the source's `jsRound`. -/
def roundHalfAway (x : ℝ) : ℤ := if 0 ≤ x then ⌊x + 1 / 2⌋ else ⌈x - 1 / 2⌉

/-- `calculateSymmetry` — `src/unnamed/part_000`, lines 58-70. -/
def calculateSymmetry (centerPoint leftPoint rightPoint : Point) : ℝ :=
  let leftDist := dist centerPoint leftPoint
  let rightDist := dist centerPoint rightPoint
  let difference := |leftDist - rightDist|
  let average := (leftDist + rightDist) / 2
  if average > 0 then (1 - difference / average) * 100 else 100

/-- `PHI` — `src/unnamed/part_000`, line 73. -/
def PHI : ℝ := 1.618

/-- `calculateGoldenRatioScore` — `src/unnamed/part_000`, lines 74-80.
`score = Math.max(0, 1 - |ratio - φ| / 0.5) * 100`, then clamped to [0,100]. -/
def calculateGoldenRatioScore (ratio : ℝ) : ℝ :=
  let difference := |ratio - PHI|
  let maxDeviation : ℝ := 0.5
  let score := max 0 (1 - difference / maxDeviation) * 100
  clamp score 0 100

/-- The named landmark points the Extended pipeline extracts
(`src/unnamed/part_000`, lines 107-132), in source order. -/
structure PointEnv where
  forehead_top : Point
  chin_bottom : Point
  face_left : Point
  face_right : Point
  cheek_left : Point
  cheek_right : Point
  jaw_left : Point
  jaw_right : Point
  mouth_bottom : Point
  eye_right_outer : Point
  eye_right_inner : Point
  eye_left_inner : Point
  eye_left_outer : Point
  eye_right_top : Point
  eye_right_bottom : Point
  eye_left_top : Point
  eye_left_bottom : Point
  nose_center : Point
  nose_base : Point
  nose_tip : Point
  mouth_left : Point
  mouth_right : Point
  nose_left : Point
  nose_right : Point

/-- The named landmark points the Basic pipeline extracts
(`src/lib/analyzeFace.ts`, lines 61-69), in source order. -/
structure PointEnvB where
  forehead_top : Point
  chin_bottom : Point
  face_left : Point
  face_right : Point
  cheek_left : Point
  cheek_right : Point
  jaw_left : Point
  jaw_right : Point
  mouth_bottom : Point

/-- The Basic points are the first nine Extended points. -/
def projB (e : PointEnv) : PointEnvB :=
  ⟨e.forehead_top, e.chin_bottom, e.face_left, e.face_right, e.cheek_left,
   e.cheek_right, e.jaw_left, e.jaw_right, e.mouth_bottom⟩

/-- `getKeypoint(idx)` reads `keypoints[idx]`; an out-of-range index makes the
source throw (`keypoints[idx]` is `undefined`, so `.x` raises a TypeError).
Modeled as an `Option`-valued lookup. -/
def getKeypoint (kps : List Point) (idx : ℕ) : Option Point := kps.get? idx

/-! ## Extended pipeline (`src/unnamed/part_000`), feature extraction and facets -/

/-- `face_width = dist(face_left, face_right)` — line 135. -/
def face_widthE (e : PointEnv) : ℝ := dist e.face_left e.face_right

/-- `face_height = dist(forehead_top, chin_bottom)` — line 136. -/
def face_heightE (e : PointEnv) : ℝ := dist e.forehead_top e.chin_bottom

/-- `jaw_width = dist(jaw_left, jaw_right)` — line 137. -/
def jaw_widthE (e : PointEnv) : ℝ := dist e.jaw_left e.jaw_right

/-- `cheek_width = dist(cheek_left, cheek_right)` — line 138. -/
def cheek_widthE (e : PointEnv) : ℝ := dist e.cheek_left e.cheek_right

/-- `chin_length = dist(mouth_bottom, chin_bottom)` — line 139. -/
def chin_lengthE (e : PointEnv) : ℝ := dist e.mouth_bottom e.chin_bottom

/-- `jaw_ratio = jaw_width / face_width` — line 145. -/
def jaw_ratioE (e : PointEnv) : ℝ := jaw_widthE e / face_widthE e

/-- `chin_ratio = chin_length / face_height` — line 146. -/
def chin_ratioE (e : PointEnv) : ℝ := chin_lengthE e / face_heightE e

/-- `cheek_ratio = cheek_width / jaw_width` — line 147. -/
def cheek_ratioE (e : PointEnv) : ℝ := cheek_widthE e / jaw_widthE e

/-- `face_ratio = face_width / face_height` — line 148. -/
def face_ratioE (e : PointEnv) : ℝ := face_widthE e / face_heightE e

/-- Jawline facet — lines 151-154. -/
def jawlineE (e : PointEnv) : ℤ :=
  jsRound (0.7 * norm (jaw_ratioE e) 0.60 0.85 + 0.3 * norm (chin_ratioE e) 0.08 0.14)

/-- Cheekbones facet — line 157. -/
def cheekbonesE (e : PointEnv) : ℤ := jsRound (norm (cheek_ratioE e) 0.95 1.25)

/-- Skin-quality facet — lines 160-164.  A function of the quality record only. -/
def skin_qualityE (q : QualityMetrics) : ℤ :=
  jsRound (0.5 * norm q.sharpness 50 250 + 0.3 * norm q.contrast 20 70 +
    0.2 * clamp (100 - |norm q.brightness 80 170 - 50| * 2) 0 100)

/-- Masculinity facet — lines 167-170. -/
def masculinityE (e : PointEnv) : ℤ :=
  jsRound (0.6 * norm (jaw_ratioE e) 0.60 0.85 + 0.4 * norm (face_ratioE e) 0.65 0.90)

/-- Symmetry facet — lines 172-176: the rounded mean of three
`calculateSymmetry` sub-scores (center = nose bridge, index 168). -/
def symmetryE (e : PointEnv) : ℤ :=
  jsRound ((calculateSymmetry e.nose_center e.eye_left_outer e.eye_right_outer +
    calculateSymmetry e.nose_center e.cheek_left e.cheek_right +
    calculateSymmetry e.nose_center e.jaw_left e.jaw_right) / 3)

/-- Golden-ratio facet — lines 178-189: rounded mean of the scores of
`face_height/face_width` and `dist(forehead_top, nose_center)/dist(nose_center, chin_bottom)`. -/
def golden_ratioE (e : PointEnv) : ℤ :=
  jsRound ((calculateGoldenRatioScore (face_heightE e / face_widthE e) +
    calculateGoldenRatioScore
      (dist e.forehead_top e.nose_center / dist e.nose_center e.chin_bottom)) / 2)

/-- `upperThird = dist(forehead_top, nose_base)` — line 192. -/
def upperThirdE (e : PointEnv) : ℝ := dist e.forehead_top e.nose_base

/-- `midThird = dist(nose_base, nose_tip)` — line 193. -/
def midThirdE (e : PointEnv) : ℝ := dist e.nose_base e.nose_tip

/-- `lowerThird = dist(nose_tip, chin_bottom)` — line 194. -/
def lowerThirdE (e : PointEnv) : ℝ := dist e.nose_tip e.chin_bottom

/-- `avgThird` — line 197. -/
def avgThirdE (e : PointEnv) : ℝ := (upperThirdE e + midThirdE e + lowerThirdE e) / 3

/-- `maxDev = Math.max(dev1, dev2, dev3)` — lines 198-202. -/
def maxDevThirdE (e : PointEnv) : ℝ :=
  max (|upperThirdE e - avgThirdE e|)
    (max (|midThirdE e - avgThirdE e|) (|lowerThirdE e - avgThirdE e|))

/-- Facial-thirds facet — line 203:
`Math.round(Math.max(0, 100 - (maxDev / avgThird) * 300))`. -/
def facial_thirdsE (e : PointEnv) : ℤ :=
  jsRound (max 0 (100 - maxDevThirdE e / avgThirdE e * 300))

/-- `fifth1 = dist(face_left, eye_right_outer)` — line 206. -/
def fifth1E (e : PointEnv) : ℝ := dist e.face_left e.eye_right_outer

/-- `fifth2 = dist(eye_right_outer, eye_right_inner)` — line 207. -/
def fifth2E (e : PointEnv) : ℝ := dist e.eye_right_outer e.eye_right_inner

/-- `fifth3 = dist(eye_right_inner, eye_left_inner)` — line 208. -/
def fifth3E (e : PointEnv) : ℝ := dist e.eye_right_inner e.eye_left_inner

/-- `fifth4 = dist(eye_left_inner, eye_left_outer)` — line 209. -/
def fifth4E (e : PointEnv) : ℝ := dist e.eye_left_inner e.eye_left_outer

/-- `fifth5 = dist(eye_left_outer, face_right)` — line 210. -/
def fifth5E (e : PointEnv) : ℝ := dist e.eye_left_outer e.face_right

/-- `avgFifth` — line 212. -/
def avgFifthE (e : PointEnv) : ℝ :=
  (fifth1E e + fifth2E e + fifth3E e + fifth4E e + fifth5E e) / 5

/-- `maxFifthDev = Math.max(devF1, ..., devF5)` — lines 213-219. -/
def maxDevFifthE (e : PointEnv) : ℝ :=
  max (|fifth1E e - avgFifthE e|)
    (max (|fifth2E e - avgFifthE e|)
      (max (|fifth3E e - avgFifthE e|)
        (max (|fifth4E e - avgFifthE e|) (|fifth5E e - avgFifthE e|))))

/-- Facial-fifths facet — line 220. -/
def facial_fifthsE (e : PointEnv) : ℤ :=
  jsRound (max 0 (100 - maxDevFifthE e / avgFifthE e * 300))

/-- Eye facet — lines 222-243: half spacing score, half a two-level tilt bonus
(`leftTiltGood && rightTiltGood ? 100 : 70`, favorable = outer corner's y
numerically smaller than the inner corner's).  The intermediate tilt-angle
variables in the source are computed but never used and are omitted. -/
def eye_scoreE (e : PointEnv) : ℤ :=
  jsRound (0.5 * norm (fifth3E e / ((fifth2E e + fifth4E e) / 2)) 0.8 1.2 +
    0.5 * (if e.eye_left_outer.y < e.eye_left_inner.y ∧
      e.eye_right_outer.y < e.eye_right_inner.y then 100 else 70))

/-- Nose facet — lines 246-255. -/
def nose_scoreE (e : PointEnv) : ℤ :=
  jsRound (0.5 * norm (dist e.nose_left e.nose_right / dist e.mouth_left e.mouth_right) 0.6 0.9 +
    0.5 * norm (dist e.nose_left e.nose_right / face_widthE e) 0.20 0.30)

/-- Extended overall — lines 258-262. -/
def overallE (e : PointEnv) (q : QualityMetrics) : ℤ :=
  jsRound (0.15 * (jawlineE e : ℝ) + 0.15 * (cheekbonesE e : ℝ) +
    0.15 * (skin_qualityE q : ℝ) + 0.15 * (masculinityE e : ℝ) +
    0.10 * (symmetryE e : ℝ) + 0.05 * (golden_ratioE e : ℝ) +
    0.05 * (facial_thirdsE e : ℝ) + 0.05 * (facial_fifthsE e : ℝ) +
    0.10 * (eye_scoreE e : ℝ) + 0.05 * (nose_scoreE e : ℝ))

/-- Warning tags, pushed in source order — lines 265-279. -/
def warningsE (q : QualityMetrics) : List String :=
  (if q.sharpness ≤ 150 then ["low_sharpness"] else []) ++
    (if q.brightness < 90 ∨ 160 < q.brightness then ["bad_brightness"] else []) ++
      (if q.contrast ≤ 35 then ["low_contrast"] else [])

/-- `photo_penalty`, accumulated alongside the warnings — lines 265-279. -/
def photo_penaltyE (q : QualityMetrics) : ℤ :=
  (if q.sharpness ≤ 150 then 15 else 0) +
    (if q.brightness < 90 ∨ 160 < q.brightness then 10 else 0) +
      (if q.contrast ≤ 35 then 10 else 0)

/-- `potential = Math.round(clamp(overall + photo_penalty, 0, 100))` — line 281. -/
def potentialE (e : PointEnv) (q : QualityMetrics) : ℤ :=
  jsRound (clamp ((overallE e q : ℝ) + (photo_penaltyE q : ℝ)) 0 100)

/-- The Extended `AnalysisResult` — `src/unnamed/part_000`, lines 38-53. -/
structure AnalysisResultExt where
  overall : ℤ
  potential : ℤ
  masculinity : ℤ
  skin_quality : ℤ
  jawline : ℤ
  cheekbones : ℤ
  symmetry : ℤ
  golden_ratio : ℤ
  facial_thirds : ℤ
  facial_fifths : ℤ
  eye_score : ℤ
  nose_score : ℤ
  warnings : List String
  landmarks : List Point

/-- The scoring part of the Extended `analyzeFace` — lines 134-298 — once all
landmark accesses have succeeded; `kps` is echoed as `landmarks`. -/
def analyzeCoreExt (e : PointEnv) (q : QualityMetrics) (kps : List Point) :
    AnalysisResultExt :=
  { overall := overallE e q
    potential := potentialE e q
    masculinity := masculinityE e
    skin_quality := skin_qualityE q
    jawline := jawlineE e
    cheekbones := cheekbonesE e
    symmetry := symmetryE e
    golden_ratio := golden_ratioE e
    facial_thirds := facial_thirdsE e
    facial_fifths := facial_fifthsE e
    eye_score := eye_scoreE e
    nose_score := nose_scoreE e
    warnings := warningsE q
    landmarks := kps }

/-- The landmark-mapping block of the Extended `analyzeFace` — lines 105-132.
Each access in source order; the first out-of-range access aborts the
analysis (the source throws there). -/
noncomputable def extractExtended (kps : List Point) : Option PointEnv :=
  (getKeypoint kps 10).bind fun forehead_top =>
  (getKeypoint kps 152).bind fun chin_bottom =>
  (getKeypoint kps 234).bind fun face_left =>
  (getKeypoint kps 454).bind fun face_right =>
  (getKeypoint kps 123).bind fun cheek_left =>
  (getKeypoint kps 352).bind fun cheek_right =>
  (getKeypoint kps 172).bind fun jaw_left =>
  (getKeypoint kps 397).bind fun jaw_right =>
  (getKeypoint kps 14).bind fun mouth_bottom =>
  (getKeypoint kps 33).bind fun eye_right_outer =>
  (getKeypoint kps 133).bind fun eye_right_inner =>
  (getKeypoint kps 362).bind fun eye_left_inner =>
  (getKeypoint kps 263).bind fun eye_left_outer =>
  (getKeypoint kps 159).bind fun eye_right_top =>
  (getKeypoint kps 145).bind fun eye_right_bottom =>
  (getKeypoint kps 386).bind fun eye_left_top =>
  (getKeypoint kps 374).bind fun eye_left_bottom =>
  (getKeypoint kps 168).bind fun nose_center =>
  (getKeypoint kps 9).bind fun nose_base =>
  (getKeypoint kps 0).bind fun nose_tip =>
  (getKeypoint kps 61).bind fun mouth_left =>
  (getKeypoint kps 291).bind fun mouth_right =>
  (getKeypoint kps 102).bind fun nose_left =>
  (getKeypoint kps 331).bind fun nose_right =>
  some ⟨forehead_top, chin_bottom, face_left, face_right, cheek_left,
    cheek_right, jaw_left, jaw_right, mouth_bottom, eye_right_outer,
    eye_right_inner, eye_left_inner, eye_left_outer, eye_right_top,
    eye_right_bottom, eye_left_top, eye_left_bottom, nose_center, nose_base,
    nose_tip, mouth_left, mouth_right, nose_left, nose_right⟩

/-- The Extended `analyzeFace` (`src/unnamed/part_000`, lines 93-299) given the
detected keypoints and the quality record; `none` models the TypeError thrown
on an out-of-range landmark access. -/
def analyzeFaceExtended (kps : List Point) (q : QualityMetrics) :
    Option AnalysisResultExt :=
  (extractExtended kps).map fun e => analyzeCoreExt e q kps

/-! ## Basic pipeline (`src/lib/analyzeFace.ts`) -/

/-- `face_width` — `src/lib/analyzeFace.ts`, line 72. -/
def face_widthB (e : PointEnvB) : ℝ := dist e.face_left e.face_right

/-- `face_height` — line 73. -/
def face_heightB (e : PointEnvB) : ℝ := dist e.forehead_top e.chin_bottom

/-- `jaw_width` — line 74. -/
def jaw_widthB (e : PointEnvB) : ℝ := dist e.jaw_left e.jaw_right

/-- `cheek_width` — line 75. -/
def cheek_widthB (e : PointEnvB) : ℝ := dist e.cheek_left e.cheek_right

/-- `chin_length` — line 76. -/
def chin_lengthB (e : PointEnvB) : ℝ := dist e.mouth_bottom e.chin_bottom

/-- `jaw_ratio` — line 82. -/
def jaw_ratioB (e : PointEnvB) : ℝ := jaw_widthB e / face_widthB e

/-- `chin_ratio` — line 83. -/
def chin_ratioB (e : PointEnvB) : ℝ := chin_lengthB e / face_heightB e

/-- `cheek_ratio` — line 84. -/
def cheek_ratioB (e : PointEnvB) : ℝ := cheek_widthB e / jaw_widthB e

/-- `face_ratio` — line 85. -/
def face_ratioB (e : PointEnvB) : ℝ := face_widthB e / face_heightB e

/-- Jawline facet — lines 88-91. -/
def jawlineB (e : PointEnvB) : ℤ :=
  jsRound (0.7 * norm (jaw_ratioB e) 0.60 0.85 + 0.3 * norm (chin_ratioB e) 0.08 0.14)

/-- Cheekbones facet — line 94. -/
def cheekbonesB (e : PointEnvB) : ℤ := jsRound (norm (cheek_ratioB e) 0.95 1.25)

/-- Skin-quality facet — lines 97-101. -/
def skin_qualityB (q : QualityMetrics) : ℤ :=
  jsRound (0.5 * norm q.sharpness 50 250 + 0.3 * norm q.contrast 20 70 +
    0.2 * clamp (100 - |norm q.brightness 80 170 - 50| * 2) 0 100)

/-- Masculinity facet — lines 104-107. -/
def masculinityB (e : PointEnvB) : ℤ :=
  jsRound (0.6 * norm (jaw_ratioB e) 0.60 0.85 + 0.4 * norm (face_ratioB e) 0.65 0.90)

/-- Basic overall — lines 110-112. -/
def overallB (e : PointEnvB) (q : QualityMetrics) : ℤ :=
  jsRound (0.30 * (jawlineB e : ℝ) + 0.25 * (cheekbonesB e : ℝ) +
    0.20 * (skin_qualityB q : ℝ) + 0.25 * (masculinityB e : ℝ))

/-- Warning tags, pushed in source order — lines 115-129. -/
def warningsB (q : QualityMetrics) : List String :=
  (if q.sharpness ≤ 150 then ["low_sharpness"] else []) ++
    (if q.brightness < 90 ∨ 160 < q.brightness then ["bad_brightness"] else []) ++
      (if q.contrast ≤ 35 then ["low_contrast"] else [])

/-- `photo_penalty` — lines 115-129. -/
def photo_penaltyB (q : QualityMetrics) : ℤ :=
  (if q.sharpness ≤ 150 then 15 else 0) +
    (if q.brightness < 90 ∨ 160 < q.brightness then 10 else 0) +
      (if q.contrast ≤ 35 then 10 else 0)

/-- `potential` — line 131. -/
def potentialB (e : PointEnvB) (q : QualityMetrics) : ℤ :=
  jsRound (clamp ((overallB e q : ℝ) + (photo_penaltyB q : ℝ)) 0 100)

/-- The Basic `AnalysisResult` — `src/lib/analyzeFace.ts`, lines 24-32. -/
structure AnalysisResultB where
  overall : ℤ
  potential : ℤ
  masculinity : ℤ
  skin_quality : ℤ
  jawline : ℤ
  cheekbones : ℤ
  warnings : List String

/-- The scoring part of the Basic `analyzeFace` — lines 71-141. -/
def analyzeCoreB (e : PointEnvB) (q : QualityMetrics) : AnalysisResultB :=
  { overall := overallB e q
    potential := potentialB e q
    masculinity := masculinityB e
    skin_quality := skin_qualityB q
    jawline := jawlineB e
    cheekbones := cheekbonesB e
    warnings := warningsB q }

/-- The landmark-mapping block of the Basic `analyzeFace` — lines 59-69. -/
noncomputable def extractBasic (kps : List Point) : Option PointEnvB :=
  (getKeypoint kps 10).bind fun forehead_top =>
  (getKeypoint kps 152).bind fun chin_bottom =>
  (getKeypoint kps 234).bind fun face_left =>
  (getKeypoint kps 454).bind fun face_right =>
  (getKeypoint kps 123).bind fun cheek_left =>
  (getKeypoint kps 352).bind fun cheek_right =>
  (getKeypoint kps 172).bind fun jaw_left =>
  (getKeypoint kps 397).bind fun jaw_right =>
  (getKeypoint kps 14).bind fun mouth_bottom =>
  some ⟨forehead_top, chin_bottom, face_left, face_right, cheek_left,
    cheek_right, jaw_left, jaw_right, mouth_bottom⟩

/-- The Basic `analyzeFace` (`src/lib/analyzeFace.ts`, lines 47-142). -/
def analyzeFaceBasic (kps : List Point) (q : QualityMetrics) :
    Option AnalysisResultB :=
  (extractBasic kps).map fun e => analyzeCoreB e q

/-! ## Elementary facts about the numeric helpers -/

theorem le_clamp (x a b : ℝ) : a ≤ clamp x a b := le_max_left a _

theorem clamp_le {a b : ℝ} (x : ℝ) (hab : a ≤ b) : clamp x a b ≤ b :=
  max_le hab (min_le_right x b)

theorem clamp_eq_of_mem {x a b : ℝ} (ha : a ≤ x) (hb : x ≤ b) : clamp x a b = x := by
  rw [clamp, min_eq_left hb, max_eq_right ha]

theorem norm_nonneg (x lo hi : ℝ) : 0 ≤ norm x lo hi := le_clamp _ 0 100

theorem norm_le_100 (x lo hi : ℝ) : norm x lo hi ≤ 100 := clamp_le _ (by norm_num)

theorem le_jsRound {a : ℤ} {x : ℝ} (h : (a : ℝ) ≤ x) : a ≤ jsRound x :=
  Int.le_floor.mpr (by push_cast; linarith)

theorem jsRound_le {b : ℤ} {x : ℝ} (h : x ≤ (b : ℝ)) : jsRound x ≤ b := by
  have h2 : ⌊x + 1 / 2⌋ < b + 1 := Int.floor_lt.mpr (by push_cast; linarith)
  rw [jsRound]; omega

theorem jsRound_intCast (n : ℤ) : jsRound ((n : ℤ) : ℝ) = n := by
  rw [jsRound, Int.floor_eq_iff] <;> constructor <;> push_cast <;> linarith

theorem dist_nonneg (p q : Point) : 0 ≤ dist p q := Real.sqrt_nonneg _

theorem dist_horiz (a b c : ℝ) : dist ⟨a, c⟩ ⟨b, c⟩ = |a - b| := by
  simp [dist]
  rw [Real.sqrt_sq_eq_abs]

theorem dist_vert (c a b : ℝ) : dist ⟨c, a⟩ ⟨c, b⟩ = |a - b| := by
  simp [dist]
  rw [Real.sqrt_sq_eq_abs]

/-! ## Building a full keypoint list from a point environment

`toKps e` is a 455-entry landmark list (the smallest prefix of the 468-point
FaceMesh topology containing every index the source reads) that carries the
points of `e` at the indices the source reads and the origin elsewhere. -/

/-- Place the points of `e` at the indices the source reads. -/
def pointAt (e : PointEnv) : ℕ → Point := fun i =>
  match i with
  | 10 => e.forehead_top
  | 152 => e.chin_bottom
  | 234 => e.face_left
  | 454 => e.face_right
  | 123 => e.cheek_left
  | 352 => e.cheek_right
  | 172 => e.jaw_left
  | 397 => e.jaw_right
  | 14 => e.mouth_bottom
  | 33 => e.eye_right_outer
  | 133 => e.eye_right_inner
  | 362 => e.eye_left_inner
  | 263 => e.eye_left_outer
  | 159 => e.eye_right_top
  | 145 => e.eye_right_bottom
  | 386 => e.eye_left_top
  | 374 => e.eye_left_bottom
  | 168 => e.nose_center
  | 9 => e.nose_base
  | 0 => e.nose_tip
  | 61 => e.mouth_left
  | 291 => e.mouth_right
  | 102 => e.nose_left
  | 331 => e.nose_right
  | _ => ⟨0, 0⟩

/-- A concrete 455-point landmark list realizing the environment `e`. -/
noncomputable def toKps (e : PointEnv) : List Point :=
  (List.range 455).map (pointAt e)

theorem toKps_get (e : PointEnv) (i : ℕ) :
    getKeypoint (toKps e) i = if i < 455 then some (pointAt e i) else none := by
  by_cases h : i < 455
  · rw [getKeypoint, toKps, List.get?_map, List.get?_range h, if_pos h]
    rfl
  · rw [getKeypoint, toKps, List.get?_map, if_neg h]
    rw [List.get?_eq_none.mpr (by simpa using Nat.le_of_not_lt h)]
    rfl

theorem toKps_length (e : PointEnv) : (toKps e).length = 455 := by
  rw [toKps, List.length_map, List.length_range]

theorem extractExtended_toKps (e : PointEnv) :
    extractExtended (toKps e) = some e := by
  simp [extractExtended, toKps_get, pointAt]

theorem extractBasic_toKps (e : PointEnv) :
    extractBasic (toKps e) = some (projB e) := by
  simp [extractBasic, toKps_get, pointAt, projB]

theorem analyzeFaceExtended_toKps (e : PointEnv) (q : QualityMetrics) :
    analyzeFaceExtended (toKps e) q = some (analyzeCoreExt e q (toKps e)) := by
  rw [analyzeFaceExtended, extractExtended_toKps]
  rfl

theorem analyzeFaceBasic_toKps (e : PointEnv) (q : QualityMetrics) :
    analyzeFaceBasic (toKps e) q = some (analyzeCoreB (projB e) q) := by
  rw [analyzeFaceBasic, extractBasic_toKps]
  rfl

/-! ## Success of extraction forces at least 455 landmarks -/

theorem extractExtended_length {kps : List Point} {e : PointEnv}
    (h : extractExtended kps = some e) : 455 ≤ kps.length := by
  rw [extractExtended] at h
  obtain ⟨p10, h10, h⟩ := Option.bind_eq_some.mp h
  obtain ⟨p152, h152, h⟩ := Option.bind_eq_some.mp h
  obtain ⟨p234, h234, h⟩ := Option.bind_eq_some.mp h
  obtain ⟨p454, h454, h⟩ := Option.bind_eq_some.mp h
  rw [getKeypoint] at h454
  obtain ⟨hlt, -⟩ := List.get?_eq_some.mp h454
  omega

theorem extractBasic_length {kps : List Point} {e : PointEnvB}
    (h : extractBasic kps = some e) : 455 ≤ kps.length := by
  rw [extractBasic] at h
  obtain ⟨p10, h10, h⟩ := Option.bind_eq_some.mp h
  obtain ⟨p152, h152, h⟩ := Option.bind_eq_some.mp h
  obtain ⟨p234, h234, h⟩ := Option.bind_eq_some.mp h
  obtain ⟨p454, h454, h⟩ := Option.bind_eq_some.mp h
  rw [getKeypoint] at h454
  obtain ⟨hlt, -⟩ := List.get?_eq_some.mp h454
  omega

/-- A successful Extended extraction determines a successful Basic extraction
of the projected environment: both read the same nine leading indices. -/
theorem extractBasic_of_extended {kps : List Point} {e : PointEnv}
    (h : extractExtended kps = some e) : extractBasic kps = some (projB e) := by
  rw [extractExtended] at h
  obtain ⟨p10, h10, h⟩ := Option.bind_eq_some.mp h
  obtain ⟨p152, h152, h⟩ := Option.bind_eq_some.mp h
  obtain ⟨p234, h234, h⟩ := Option.bind_eq_some.mp h
  obtain ⟨p454, h454, h⟩ := Option.bind_eq_some.mp h
  obtain ⟨p123, h123, h⟩ := Option.bind_eq_some.mp h
  obtain ⟨p352, h352, h⟩ := Option.bind_eq_some.mp h
  obtain ⟨p172, h172, h⟩ := Option.bind_eq_some.mp h
  obtain ⟨p397, h397, h⟩ := Option.bind_eq_some.mp h
  obtain ⟨p14, h14, h⟩ := Option.bind_eq_some.mp h
  obtain ⟨p33, h33, h⟩ := Option.bind_eq_some.mp h
  obtain ⟨p133, h133, h⟩ := Option.bind_eq_some.mp h
  obtain ⟨p362, h362, h⟩ := Option.bind_eq_some.mp h
  obtain ⟨p263, h263, h⟩ := Option.bind_eq_some.mp h
  obtain ⟨p159, h159, h⟩ := Option.bind_eq_some.mp h
  obtain ⟨p145, h145, h⟩ := Option.bind_eq_some.mp h
  obtain ⟨p386, h386, h⟩ := Option.bind_eq_some.mp h
  obtain ⟨p374, h374, h⟩ := Option.bind_eq_some.mp h
  obtain ⟨p168, h168, h⟩ := Option.bind_eq_some.mp h
  obtain ⟨p9, h9, h⟩ := Option.bind_eq_some.mp h
  obtain ⟨p0, h0, h⟩ := Option.bind_eq_some.mp h
  obtain ⟨p61, h61, h⟩ := Option.bind_eq_some.mp h
  obtain ⟨p291, h291, h⟩ := Option.bind_eq_some.mp h
  obtain ⟨p102, h102, h⟩ := Option.bind_eq_some.mp h
  obtain ⟨p331, h331, h⟩ := Option.bind_eq_some.mp h
  have he := Option.some.inj h
  subst he
  rw [extractBasic, h10, h152, h234, h454, h123, h352, h172, h397, h14]
  simp [projB]

/-- Rounding a clamped sum of integers is the integer clamp of the sum. -/
theorem jsRound_clamp_int (a b : ℤ) :
    jsRound (clamp ((a : ℝ) + (b : ℝ)) 0 100) = max 0 (min (a + b) 100) := by
  rw [clamp]
  rw [show ((a : ℝ) + b) = ((a + b : ℤ) : ℝ) by push_cast; ring]
  rw [show (100 : ℝ) = ((100 : ℤ) : ℝ) by norm_num, ← Int.cast_min]
  rw [show (0 : ℝ) = ((0 : ℤ) : ℝ) by norm_num, ← Int.cast_max, jsRound_intCast]

/-! ## Claims -/

/-- C6: `normalize(x,lo,hi) = clamp(((x - lo) / (hi - lo)) * 100, 0, 100)`:
for every `lo < hi` it is non-decreasing in `x`, equals 0 for every `x ≤ lo`,
equals 100 for every `x ≥ hi`, and equals the linear expression
`((x - lo)/(hi - lo))*100` for every `x` between `lo` and `hi`. -/
theorem c6_norm_properties (lo hi : ℝ) (hlh : lo < hi) :
    (∀ x y, x ≤ y → norm x lo hi ≤ norm y lo hi) ∧
    (∀ x, x ≤ lo → norm x lo hi = 0) ∧
    (∀ x, hi ≤ x → norm x lo hi = 100) ∧
    (∀ x, lo ≤ x → x ≤ hi → norm x lo hi = (x - lo) / (hi - lo) * 100) := by
  have hpos : 0 < hi - lo := by linarith
  refine ⟨?_, ?_, ?_, ?_⟩
  · intro x y hxy
    have key : (x - lo) / (hi - lo) * 100 ≤ (y - lo) / (hi - lo) * 100 := by
      gcongr
    exact max_le_max le_rfl (min_le_min key le_rfl)
  · intro x hx
    have h1 : (x - lo) / (hi - lo) * 100 ≤ 0 := by
      have : (x - lo) / (hi - lo) ≤ 0 :=
        div_nonpos_iff.mpr (Or.inr ⟨by linarith, by linarith⟩)
      nlinarith
    rw [norm, clamp]
    exact max_eq_left (le_trans (min_le_left _ _) h1)
  · intro x hx
    have h1 : (100 : ℝ) ≤ (x - lo) / (hi - lo) * 100 := by
      have : (1 : ℝ) ≤ (x - lo) / (hi - lo) := (one_le_div hpos).mpr (by linarith)
      nlinarith
    rw [norm, clamp, min_eq_right h1]
    exact max_eq_right (by norm_num)
  · intro x hx1 hx2
    have h0 : 0 ≤ (x - lo) / (hi - lo) * 100 :=
      mul_nonneg (div_nonneg (by linarith) (by linarith)) (by norm_num)
    have h100 : (x - lo) / (hi - lo) * 100 ≤ 100 := by
      have : (x - lo) / (hi - lo) ≤ 1 := (div_le_one hpos).mpr (by linarith)
      nlinarith
    exact clamp_eq_of_mem h0 h100

/-- C6 witness: instantiated at `lo = 0`, `hi = 10`, `x = 5`. -/
theorem c6_witness : (0 : ℝ) < 10 ∧ norm 5 0 10 = 50 := by
  refine ⟨by norm_num, ?_⟩
  have h := (c6_norm_properties 0 10 (by norm_num)).2.2.2 5 (by norm_num) (by norm_num)
  rw [h]
  norm_num

/-- The golden-ratio sub-score in closed form. -/
theorem calculateGoldenRatioScore_eq (ratio : ℝ) :
    calculateGoldenRatioScore ratio = max 0 (1 - |ratio - 1.618| / 0.5) * 100 := by
  rw [calculateGoldenRatioScore, PHI]
  have habs : 0 ≤ |ratio - 1.618| := abs_nonneg _
  have hs0 : (0 : ℝ) ≤ max 0 (1 - |ratio - 1.618| / 0.5) * 100 := by positivity
  have hs1 : max 0 (1 - |ratio - 1.618| / 0.5) * 100 ≤ 100 := by
    have h1 : 1 - |ratio - 1.618| / 0.5 ≤ 1 := by
      have : 0 ≤ |ratio - 1.618| / 0.5 := by positivity
      linarith
    have : max 0 (1 - |ratio - 1.618| / 0.5) ≤ 1 := max_le (by norm_num) h1
    nlinarith
  exact clamp_eq_of_mem hs0 hs1

/-- C9: the golden-ratio facet is the rounded mean of two sub-scores (for the
ratios `face_height/face_width` and upper-face/lower-face around the nose
bridge); each sub-score equals `clamp((1 - |ratio - 1.618| / 0.5), 0, 1) * 100`,
is 100 exactly when the ratio equals 1.618, and is 0 whenever
`|ratio - 1.618| ≥ 0.5`. -/
theorem c9_golden_ratio :
    (∀ ratio : ℝ,
      calculateGoldenRatioScore ratio = clamp (1 - |ratio - 1.618| / 0.5) 0 1 * 100) ∧
    (∀ ratio : ℝ, (calculateGoldenRatioScore ratio = 100 ↔ ratio = 1.618)) ∧
    (∀ ratio : ℝ, 0.5 ≤ |ratio - 1.618| → calculateGoldenRatioScore ratio = 0) ∧
    (∀ e : PointEnv, golden_ratioE e =
      jsRound ((calculateGoldenRatioScore (face_heightE e / face_widthE e) +
        calculateGoldenRatioScore
          (dist e.forehead_top e.nose_center / dist e.nose_center e.chin_bottom)) / 2)) := by
  refine ⟨?_, ?_, ?_, fun e => rfl⟩
  · intro ratio
    rw [calculateGoldenRatioScore_eq, clamp]
    have h1 : 1 - |ratio - 1.618| / 0.5 ≤ 1 := by
      have : 0 ≤ |ratio - 1.618| / 0.5 := by positivity
      linarith
    rw [min_eq_left h1]
  · intro ratio
    rw [calculateGoldenRatioScore_eq]
    constructor
    · intro h
      have hmax : max 0 (1 - |ratio - 1.618| / 0.5) = 1 := by linarith
      have ht : 1 - |ratio - 1.618| / 0.5 = 1 := by
        rcases le_or_lt (1 - |ratio - 1.618| / 0.5) 0 with hle | hgt
        · rw [max_eq_left hle] at hmax
          norm_num at hmax
        · rwa [max_eq_right (le_of_lt hgt)] at hmax
      have habs : |ratio - 1.618| = 0 := by
        have hd : |ratio - 1.618| / 0.5 = 0 := by linarith
        rcases div_eq_zero_iff.mp hd with h0 | h0
        · exact h0
        · norm_num at h0
      have := abs_eq_zero.mp habs
      linarith
    · intro h
      subst h
      norm_num
  · intro ratio h
    have ht : 1 - |ratio - 1.618| / 0.5 ≤ 0 := by
      have : (1 : ℝ) ≤ |ratio - 1.618| / 0.5 := by
        rw [le_div_iff (by norm_num)]
        linarith
      linarith
    rw [calculateGoldenRatioScore_eq, max_eq_left ht]
    ring

/-- C9 witness: at `ratio = 2.2`, which deviates from 1.618 by at least 0.5,
the sub-score is 0. -/
theorem c9_witness :
    (0.5 : ℝ) ≤ |(2.2 : ℝ) - 1.618| ∧ calculateGoldenRatioScore 2.2 = 0 := by
  have h : (0.5 : ℝ) ≤ |(2.2 : ℝ) - 1.618| := by
    rw [show (2.2 : ℝ) - 1.618 = 0.582 by norm_num, abs_of_pos (by norm_num)]
    norm_num
  exact ⟨h, c9_golden_ratio.2.2.1 2.2 h⟩

/-- C5: the Basic profile computes overall as the rounding of
`0.30·jawline + 0.25·cheekbones + 0.20·skin_quality + 0.25·masculinity`, and
the Extended profile as the rounding of
`0.15·jawline + 0.15·cheekbones + 0.15·skin_quality + 0.15·masculinity +
0.10·symmetry + 0.05·golden_ratio + 0.05·facial_thirds + 0.05·facial_fifths +
0.10·eye_score + 0.05·nose_score`. -/
theorem c5_overall_weights :
    (∀ (e : PointEnvB) (q : QualityMetrics),
      (analyzeCoreB e q).overall = jsRound
        (0.30 * ((analyzeCoreB e q).jawline : ℝ) +
          0.25 * ((analyzeCoreB e q).cheekbones : ℝ) +
          0.20 * ((analyzeCoreB e q).skin_quality : ℝ) +
          0.25 * ((analyzeCoreB e q).masculinity : ℝ))) ∧
    (∀ (e : PointEnv) (q : QualityMetrics) (kps : List Point),
      (analyzeCoreExt e q kps).overall = jsRound
        (0.15 * ((analyzeCoreExt e q kps).jawline : ℝ) +
          0.15 * ((analyzeCoreExt e q kps).cheekbones : ℝ) +
          0.15 * ((analyzeCoreExt e q kps).skin_quality : ℝ) +
          0.15 * ((analyzeCoreExt e q kps).masculinity : ℝ) +
          0.10 * ((analyzeCoreExt e q kps).symmetry : ℝ) +
          0.05 * ((analyzeCoreExt e q kps).golden_ratio : ℝ) +
          0.05 * ((analyzeCoreExt e q kps).facial_thirds : ℝ) +
          0.05 * ((analyzeCoreExt e q kps).facial_fifths : ℝ) +
          0.10 * ((analyzeCoreExt e q kps).eye_score : ℝ) +
          0.05 * ((analyzeCoreExt e q kps).nose_score : ℝ))) :=
  ⟨fun e q => rfl, fun e q kps => rfl⟩

/-- C4: the warning evaluator emits `low_sharpness` (+15) exactly when
`sharpness ≤ 150`, `bad_brightness` (+10) exactly when brightness is outside
`[90,160]`, and `low_contrast` (+10) exactly when `contrast ≤ 35`, in this
fixed order with no duplicates; penalties add, and
`potential = clamp(overall + penalty, 0, 100)`.  At sharpness=100,
brightness=200, contrast=20, exactly the three tags appear and the penalty
is 35. -/
theorem c4_warning_evaluator :
    (∀ q : QualityMetrics,
      ("low_sharpness" ∈ warningsE q ↔ q.sharpness ≤ 150) ∧
      ("bad_brightness" ∈ warningsE q ↔ (q.brightness < 90 ∨ 160 < q.brightness)) ∧
      ("low_contrast" ∈ warningsE q ↔ q.contrast ≤ 35) ∧
      (warningsE q).Nodup ∧
      photo_penaltyE q = (if "low_sharpness" ∈ warningsE q then 15 else 0) +
        (if "bad_brightness" ∈ warningsE q then 10 else 0) +
        (if "low_contrast" ∈ warningsE q then 10 else 0)) ∧
    (∀ (e : PointEnv) (q : QualityMetrics) (kps : List Point),
      (analyzeCoreExt e q kps).potential =
        max 0 (min ((analyzeCoreExt e q kps).overall + photo_penaltyE q) 100)) ∧
    warningsE ⟨100, 200, 20⟩ = ["low_sharpness", "bad_brightness", "low_contrast"] ∧
    photo_penaltyE ⟨100, 200, 20⟩ = 35 := by
  refine ⟨?_, ?_, ?_, ?_⟩
  · intro q
    refine ⟨?_, ?_, ?_, ?_, ?_⟩ <;>
      · simp only [warningsE, photo_penaltyE]
        split_ifs <;> simp_all
  · intro e q kps
    show potentialE e q = _
    rw [potentialE, jsRound_clamp_int]
    rfl
  · simp only [warningsE]
    norm_num
  · simp only [photo_penaltyE]
    norm_num

/-- C3: a landmark sequence too short for the declared topology (so that some
required fixed anatomical index — the largest is 454 — is out of range) makes
feature extraction fail, in both pipelines, instead of reading past the end of
the sequence or silently truncating.  The source throws a TypeError at the
first out-of-range access (`keypoints[idx]` is `undefined`); the spec names
this failure `ContractError`; here failure is the `none` result. -/
theorem c3_short_landmarks_fail (kps : List Point) (q : QualityMetrics)
    (h : kps.length ≤ 454) :
    analyzeFaceExtended kps q = none ∧ analyzeFaceBasic kps q = none := by
  constructor
  · rw [analyzeFaceExtended]
    cases hx : extractExtended kps with
    | none => rfl
    | some e => exact absurd (extractExtended_length hx) (by omega)
  · rw [analyzeFaceBasic]
    cases hx : extractBasic kps with
    | none => rfl
    | some e => exact absurd (extractBasic_length hx) (by omega)

/-- C3 witness: the empty landmark list is rejected by both pipelines. -/
theorem c3_witness :
    ([] : List Point).length ≤ 454 ∧
      (analyzeFaceExtended [] ⟨200, 120, 50⟩ = none ∧
        analyzeFaceBasic [] ⟨200, 120, 50⟩ = none) :=
  ⟨by simp, c3_short_landmarks_fail [] ⟨200, 120, 50⟩ (by simp)⟩

/-- C10: on identical inputs, the Basic and the Extended implementation agree
on the four shared facet scores, the warning list, and the photo penalty. -/
theorem c10_basic_extended_agree (kps : List Point) (q : QualityMetrics)
    (rB : AnalysisResultB) (rE : AnalysisResultExt)
    (hB : analyzeFaceBasic kps q = some rB)
    (hE : analyzeFaceExtended kps q = some rE) :
    rB.jawline = rE.jawline ∧ rB.cheekbones = rE.cheekbones ∧
      rB.skin_quality = rE.skin_quality ∧ rB.masculinity = rE.masculinity ∧
      rB.warnings = rE.warnings ∧ photo_penaltyB q = photo_penaltyE q := by
  rw [analyzeFaceExtended] at hE
  obtain ⟨e, he, hre⟩ := Option.map_eq_some'.mp hE
  have hb := extractBasic_of_extended he
  rw [analyzeFaceBasic, hb] at hB
  have hrb : analyzeCoreB (projB e) q = rB := by
    simpa using hB
  subst hre
  subst hrb
  exact ⟨rfl, rfl, rfl, rfl, rfl, rfl⟩

/-! ## Concrete inputs -/

/-- A geometrically non-degenerate face layout on the integer grid. -/
def envNice : PointEnv :=
  { forehead_top := ⟨0, 0⟩
    chin_bottom := ⟨0, 90⟩
    face_left := ⟨-50, 20⟩
    face_right := ⟨50, 20⟩
    cheek_left := ⟨-40, 40⟩
    cheek_right := ⟨40, 40⟩
    jaw_left := ⟨-30, 70⟩
    jaw_right := ⟨30, 70⟩
    mouth_bottom := ⟨0, 80⟩
    eye_right_outer := ⟨-35, 20⟩
    eye_right_inner := ⟨-15, 20⟩
    eye_left_inner := ⟨15, 20⟩
    eye_left_outer := ⟨35, 20⟩
    eye_right_top := ⟨-25, 15⟩
    eye_right_bottom := ⟨-25, 25⟩
    eye_left_top := ⟨25, 15⟩
    eye_left_bottom := ⟨25, 25⟩
    nose_center := ⟨0, 40⟩
    nose_base := ⟨0, 30⟩
    nose_tip := ⟨0, 60⟩
    mouth_left := ⟨-20, 75⟩
    mouth_right := ⟨20, 75⟩
    nose_left := ⟨-12, 62⟩
    nose_right := ⟨12, 62⟩ }

/-- A quality record that triggers no warnings. -/
def qNice : QualityMetrics := ⟨200, 120, 50⟩

/-- C10 witness: both pipelines succeed on the 455-point list realizing
`envNice` and agree on the shared outputs. -/
theorem c10_witness :
    analyzeFaceBasic (toKps envNice) qNice = some (analyzeCoreB (projB envNice) qNice) ∧
      analyzeFaceExtended (toKps envNice) qNice =
        some (analyzeCoreExt envNice qNice (toKps envNice)) ∧
      ((analyzeCoreB (projB envNice) qNice).jawline =
          (analyzeCoreExt envNice qNice (toKps envNice)).jawline ∧
        (analyzeCoreB (projB envNice) qNice).cheekbones =
          (analyzeCoreExt envNice qNice (toKps envNice)).cheekbones ∧
        (analyzeCoreB (projB envNice) qNice).skin_quality =
          (analyzeCoreExt envNice qNice (toKps envNice)).skin_quality ∧
        (analyzeCoreB (projB envNice) qNice).masculinity =
          (analyzeCoreExt envNice qNice (toKps envNice)).masculinity ∧
        (analyzeCoreB (projB envNice) qNice).warnings =
          (analyzeCoreExt envNice qNice (toKps envNice)).warnings ∧
        photo_penaltyB qNice = photo_penaltyE qNice) :=
  ⟨analyzeFaceBasic_toKps envNice qNice, analyzeFaceExtended_toKps envNice qNice,
    c10_basic_extended_agree (toKps envNice) qNice _ _
      (analyzeFaceBasic_toKps envNice qNice) (analyzeFaceExtended_toKps envNice qNice)⟩

/-! ## The symmetry sub-score -/

/-- Evaluation of `calculateSymmetry` when the two distances are known and
their sum is positive. -/
theorem calculateSymmetry_eval (c l r : Point) (dL dR : ℝ)
    (hl : dist c l = dL) (hr : dist c r = dR) (h : 0 < dL + dR) :
    calculateSymmetry c l r = (1 - |dL - dR| / ((dL + dR) / 2)) * 100 := by
  simp only [calculateSymmetry, hl, hr]
  rw [if_pos (by linarith)]

/-- The landmark layout refuting the claimed rounding policy for the symmetry
facet: sub-scores −1.5, 100, −100 give mean −0.5; JS `Math.round` yields 0
while round-half-away-from-zero yields −1. -/
def envC7 : PointEnv :=
  { envNice with
    nose_center := ⟨0, 0⟩
    eye_left_outer := ⟨603, 0⟩
    eye_right_outer := ⟨-197, 0⟩
    cheek_left := ⟨0, 10⟩
    cheek_right := ⟨0, -10⟩
    jaw_left := ⟨0, 0⟩
    jaw_right := ⟨5, 0⟩ }

/-- C7 counterexample: at `envC7` the symmetry facet computed by the source is
0, while the mean of the three sub-scores rounded half away from zero (the
claimed policy) is −1 — so the facet is not the mean rounded half away from
zero. -/
theorem c7_counterexample :
    symmetryE envC7 = 0 ∧
      roundHalfAway
        ((calculateSymmetry envC7.nose_center envC7.eye_left_outer envC7.eye_right_outer +
          calculateSymmetry envC7.nose_center envC7.cheek_left envC7.cheek_right +
          calculateSymmetry envC7.nose_center envC7.jaw_left envC7.jaw_right) / 3) = -1 := by
  have s1 : calculateSymmetry envC7.nose_center envC7.eye_left_outer envC7.eye_right_outer
      = -1.5 := by
    show calculateSymmetry ⟨0, 0⟩ ⟨603, 0⟩ ⟨-197, 0⟩ = -1.5
    rw [calculateSymmetry_eval _ _ _ 603 197 (by rw [dist_horiz]; norm_num)
      (by rw [dist_horiz]; norm_num) (by norm_num)]
    norm_num
  have s2 : calculateSymmetry envC7.nose_center envC7.cheek_left envC7.cheek_right
      = 100 := by
    show calculateSymmetry ⟨0, 0⟩ ⟨0, 10⟩ ⟨0, -10⟩ = 100
    rw [calculateSymmetry_eval _ _ _ 10 10 (by rw [dist_vert]; norm_num)
      (by rw [dist_vert]; norm_num) (by norm_num)]
    norm_num
  have s3 : calculateSymmetry envC7.nose_center envC7.jaw_left envC7.jaw_right
      = -100 := by
    show calculateSymmetry ⟨0, 0⟩ ⟨0, 0⟩ ⟨5, 0⟩ = -100
    rw [calculateSymmetry_eval _ _ _ 0 5 (by rw [dist_horiz]; norm_num)
      (by rw [dist_horiz]; norm_num) (by norm_num)]
    norm_num
  constructor
  · rw [symmetryE, s1, s2, s3, jsRound]
    norm_num
  · rw [s1, s2, s3, roundHalfAway, if_neg (by norm_num)]
    rw [show (-1.5 + 100 + -100 : ℝ) / 3 - 1 / 2 = ((-1 : ℤ) : ℝ) by norm_num,
      Int.ceil_intCast]

/-- C7 (amended): the symmetry sub-score is 100 when `avg(dL,dR) = 0` and
`(1 − |dL−dR|/avg)·100` otherwise; it equals 100 exactly when `dL = dR`; for a
fixed positive average it strictly decreases as `|dL−dR|` grows; and the
symmetry facet is the mean of the three triad sub-scores rounded with JS
`Math.round` (half toward +∞), not half away from zero. -/
theorem c7_symmetry :
    (∀ c l r : Point,
      ((dist c l + dist c r) / 2 = 0 → calculateSymmetry c l r = 100) ∧
      ((dist c l + dist c r) / 2 ≠ 0 →
        calculateSymmetry c l r =
          (1 - |dist c l - dist c r| / ((dist c l + dist c r) / 2)) * 100) ∧
      (calculateSymmetry c l r = 100 ↔ dist c l = dist c r)) ∧
    (∀ c l r c2 l2 r2 : Point,
      dist c l + dist c r = dist c2 l2 + dist c2 r2 →
      0 < dist c l + dist c r →
      |dist c l - dist c r| < |dist c2 l2 - dist c2 r2| →
      calculateSymmetry c2 l2 r2 < calculateSymmetry c l r) ∧
    (∀ e : PointEnv, symmetryE e = jsRound
      ((calculateSymmetry e.nose_center e.eye_left_outer e.eye_right_outer +
        calculateSymmetry e.nose_center e.cheek_left e.cheek_right +
        calculateSymmetry e.nose_center e.jaw_left e.jaw_right) / 3)) := by
  refine ⟨?_, ?_, fun e => rfl⟩
  · intro c l r
    have h1 : 0 ≤ dist c l := dist_nonneg c l
    have h2 : 0 ≤ dist c r := dist_nonneg c r
    refine ⟨?_, ?_, ?_⟩
    · intro h
      simp only [calculateSymmetry]
      rw [if_neg (by rw [h]; norm_num)]
    · intro h
      have hpos : 0 < (dist c l + dist c r) / 2 :=
        lt_of_le_of_ne (by linarith) (Ne.symm h)
      simp only [calculateSymmetry]
      rw [if_pos hpos]
    · constructor
      · intro h
        by_cases hpos : (dist c l + dist c r) / 2 > 0
        · simp only [calculateSymmetry] at h
          rw [if_pos hpos] at h
          have hdiff : |dist c l - dist c r| / ((dist c l + dist c r) / 2) = 0 := by
            linarith
          have habs : |dist c l - dist c r| = 0 := by
            rcases div_eq_zero_iff.mp hdiff with h0 | h0
            · exact h0
            · exact absurd h0 (ne_of_gt hpos)
          have := abs_eq_zero.mp habs
          linarith
        · have hz : dist c l = 0 ∧ dist c r = 0 := by
            have := not_lt.mp hpos
            constructor <;> nlinarith
          rw [hz.1, hz.2]
      · intro h
        simp only [calculateSymmetry, h]
        by_cases hpos : (dist c r + dist c r) / 2 > 0
        · rw [if_pos hpos]
          simp
        · rw [if_neg hpos]
  · intro c l r c2 l2 r2 hsum hpos hdiff
    have hA : 0 < (dist c l + dist c r) / 2 := by linarith
    simp only [calculateSymmetry]
    rw [if_pos hA, if_pos (by rw [← hsum]; exact hA)]
    rw [← hsum]
    have hq : |dist c l - dist c r| / ((dist c l + dist c r) / 2) <
        |dist c2 l2 - dist c2 r2| / ((dist c l + dist c r) / 2) := by
      gcongr
    nlinarith [hq]

/-- C7 witness: triads with equal positive average 6 and gaps 0 < 2 — the
asymmetric triad scores strictly lower. -/
theorem c7_witness :
    (dist ⟨0, 0⟩ ⟨3, 0⟩ + dist ⟨0, 0⟩ ⟨-3, 0⟩ =
        dist ⟨0, 0⟩ ⟨4, 0⟩ + dist ⟨0, 0⟩ ⟨-2, 0⟩ ∧
      0 < dist ⟨0, 0⟩ ⟨3, 0⟩ + dist ⟨0, 0⟩ ⟨-3, 0⟩ ∧
      |dist ⟨0, 0⟩ ⟨3, 0⟩ - dist ⟨0, 0⟩ ⟨-3, 0⟩| <
        |dist ⟨0, 0⟩ ⟨4, 0⟩ - dist ⟨0, 0⟩ ⟨-2, 0⟩|) ∧
    calculateSymmetry ⟨0, 0⟩ ⟨4, 0⟩ ⟨-2, 0⟩ < calculateSymmetry ⟨0, 0⟩ ⟨3, 0⟩ ⟨-3, 0⟩ := by
  have h1 : dist (⟨0, 0⟩ : Point) ⟨3, 0⟩ = 3 := by rw [dist_horiz]; norm_num
  have h2 : dist (⟨0, 0⟩ : Point) ⟨-3, 0⟩ = 3 := by rw [dist_horiz]; norm_num
  have h3 : dist (⟨0, 0⟩ : Point) ⟨4, 0⟩ = 4 := by rw [dist_horiz]; norm_num
  have h4 : dist (⟨0, 0⟩ : Point) ⟨-2, 0⟩ = 2 := by rw [dist_horiz]; norm_num
  have hsum : dist (⟨0, 0⟩ : Point) ⟨3, 0⟩ + dist (⟨0, 0⟩ : Point) ⟨-3, 0⟩ =
      dist (⟨0, 0⟩ : Point) ⟨4, 0⟩ + dist (⟨0, 0⟩ : Point) ⟨-2, 0⟩ := by
    rw [h1, h2, h3, h4]; norm_num
  have hpos : 0 < dist (⟨0, 0⟩ : Point) ⟨3, 0⟩ + dist (⟨0, 0⟩ : Point) ⟨-3, 0⟩ := by
    rw [h1, h2]; norm_num
  have hdiff : |dist (⟨0, 0⟩ : Point) ⟨3, 0⟩ - dist (⟨0, 0⟩ : Point) ⟨-3, 0⟩| <
      |dist (⟨0, 0⟩ : Point) ⟨4, 0⟩ - dist (⟨0, 0⟩ : Point) ⟨-2, 0⟩| := by
    rw [h1, h2, h3, h4]; norm_num
  exact ⟨⟨hsum, hpos, hdiff⟩, c7_symmetry.2.1 _ _ _ _ _ _ hsum hpos hdiff⟩

/-! ## Facial thirds and fifths -/

/-- The near-equal thirds layout refuting the claim that the facial-thirds
facet is 100 *exactly* when the segments are equal: segments 1000, 1000, 1001
give the unrounded value `100 − 600/3001 ≈ 99.8`, which rounds to 100. -/
def envC8 : PointEnv :=
  { envNice with
    forehead_top := ⟨0, 0⟩
    nose_base := ⟨0, 1000⟩
    nose_tip := ⟨0, 2000⟩
    chin_bottom := ⟨0, 3001⟩ }

/-- C8 counterexample: at `envC8` the three vertical segments are unequal, yet
the facial-thirds facet is 100, and the facet differs from the unrounded
expression `max(0, 100 − 300·dev_max/mean)` the claim equates it with. -/
theorem c8_counterexample :
    facial_thirdsE envC8 = 100 ∧
      midThirdE envC8 ≠ lowerThirdE envC8 ∧
      ((facial_thirdsE envC8 : ℝ) ≠
        max 0 (100 - maxDevThirdE envC8 / avgThirdE envC8 * 300)) := by
  have hu : upperThirdE envC8 = 1000 := by
    show dist ⟨0, 0⟩ ⟨0, 1000⟩ = 1000
    rw [dist_vert]; norm_num
  have hm : midThirdE envC8 = 1000 := by
    show dist ⟨0, 1000⟩ ⟨0, 2000⟩ = 1000
    rw [dist_vert]; norm_num
  have hl : lowerThirdE envC8 = 1001 := by
    show dist ⟨0, 2000⟩ ⟨0, 3001⟩ = 1001
    rw [dist_vert]; norm_num
  have havg : avgThirdE envC8 = 3001 / 3 := by
    rw [avgThirdE, hu, hm, hl]; norm_num
  have hdev : maxDevThirdE envC8 = 2 / 3 := by
    rw [maxDevThirdE, hu, hm, hl, havg]
    rw [show |(1000 : ℝ) - 3001 / 3| = 1 / 3 by rw [abs_of_nonpos (by norm_num)]; norm_num]
    rw [show |(1001 : ℝ) - 3001 / 3| = 2 / 3 by rw [abs_of_nonneg (by norm_num)]; norm_num]
    rw [max_eq_right (by norm_num), max_eq_right (by norm_num)]
  have hmax : max (0 : ℝ) (100 - maxDevThirdE envC8 / avgThirdE envC8 * 300)
      = 299500 / 3001 := by
    rw [hdev, havg, max_eq_right (by norm_num)]
    norm_num
  have hscore : facial_thirdsE envC8 = 100 := by
    rw [facial_thirdsE, hmax, jsRound, Int.floor_eq_iff]
    norm_num
  refine ⟨hscore, ?_, ?_⟩
  · rw [hm, hl]; norm_num
  · rw [hscore, hmax]; norm_num

/-- C8 (amended): the facial-thirds facet equals
`Math.round(max(0, 100 − 300·dev_max/mean))` — the rounding applied by the
source; it is 100 whenever the three segments are equal (but also for some
unequal segments, since near-100 values round up); it is 0 whenever the worst
segment's relative deviation from the mean reaches 1/3; and the facial-fifths
facet applies the identical formula to the five horizontal segments. -/
theorem c8_thirds_fifths :
    (∀ e : PointEnv, facial_thirdsE e =
      jsRound (max 0 (100 - maxDevThirdE e / avgThirdE e * 300))) ∧
    (∀ e : PointEnv, 0 < avgThirdE e → upperThirdE e = midThirdE e →
      midThirdE e = lowerThirdE e → facial_thirdsE e = 100) ∧
    (∀ e : PointEnv, 0 < avgThirdE e → 1 / 3 ≤ maxDevThirdE e / avgThirdE e →
      facial_thirdsE e = 0) ∧
    (∀ e : PointEnv, facial_fifthsE e =
      jsRound (max 0 (100 - maxDevFifthE e / avgFifthE e * 300))) := by
  refine ⟨fun e => rfl, ?_, ?_, fun e => rfl⟩
  · intro e hpos h2 h3
    have h4 : maxDevThirdE e = 0 := by
      rw [maxDevThirdE, avgThirdE, ← h3, ← h2]
      rw [show (upperThirdE e + upperThirdE e + upperThirdE e) / 3 = upperThirdE e by ring]
      simp
    rw [facial_thirdsE, h4, zero_div, zero_mul, sub_zero,
      max_eq_right (by norm_num : (0 : ℝ) ≤ 100), jsRound]
    norm_num
  · intro e hpos hge
    have ht : 100 - maxDevThirdE e / avgThirdE e * 300 ≤ 0 := by nlinarith
    rw [facial_thirdsE, max_eq_left ht, jsRound]
    norm_num

/-- C8 witness: at `envNice` the three thirds are all 30, and the facet is
100. -/
theorem c8_witness :
    (0 < avgThirdE envNice ∧ upperThirdE envNice = midThirdE envNice ∧
      midThirdE envNice = lowerThirdE envNice) ∧ facial_thirdsE envNice = 100 := by
  have hu : upperThirdE envNice = 30 := by
    show dist ⟨0, 0⟩ ⟨0, 30⟩ = 30
    rw [dist_vert]; norm_num
  have hm : midThirdE envNice = 30 := by
    show dist ⟨0, 30⟩ ⟨0, 60⟩ = 30
    rw [dist_vert]; norm_num
  have hl : lowerThirdE envNice = 30 := by
    show dist ⟨0, 60⟩ ⟨0, 90⟩ = 30
    rw [dist_vert]; norm_num
  have havg : 0 < avgThirdE envNice := by rw [avgThirdE, hu, hm, hl]; norm_num
  have h2 : upperThirdE envNice = midThirdE envNice := by rw [hu, hm]
  have h3 : midThirdE envNice = lowerThirdE envNice := by rw [hm, hl]
  exact ⟨⟨havg, h2, h3⟩, c8_thirds_fifths.2.1 envNice havg h2 h3⟩

/-! ## Range lemmas for the facet scores -/

theorem jawlineE_range (e : PointEnv) : 0 ≤ jawlineE e ∧ jawlineE e ≤ 100 := by
  have a1 := norm_nonneg (jaw_ratioE e) 0.60 0.85
  have a2 := norm_le_100 (jaw_ratioE e) 0.60 0.85
  have b1 := norm_nonneg (chin_ratioE e) 0.08 0.14
  have b2 := norm_le_100 (chin_ratioE e) 0.08 0.14
  exact ⟨le_jsRound (by push_cast; linarith), jsRound_le (by push_cast; linarith)⟩

theorem cheekbonesE_range (e : PointEnv) : 0 ≤ cheekbonesE e ∧ cheekbonesE e ≤ 100 := by
  have a1 := norm_nonneg (cheek_ratioE e) 0.95 1.25
  have a2 := norm_le_100 (cheek_ratioE e) 0.95 1.25
  exact ⟨le_jsRound (by push_cast; linarith), jsRound_le (by push_cast; linarith)⟩

theorem skin_qualityE_range (q : QualityMetrics) :
    0 ≤ skin_qualityE q ∧ skin_qualityE q ≤ 100 := by
  have a1 := norm_nonneg q.sharpness 50 250
  have a2 := norm_le_100 q.sharpness 50 250
  have b1 := norm_nonneg q.contrast 20 70
  have b2 := norm_le_100 q.contrast 20 70
  have c1 := le_clamp (100 - |norm q.brightness 80 170 - 50| * 2) 0 100
  have c2 := clamp_le (100 - |norm q.brightness 80 170 - 50| * 2)
    (by norm_num : (0 : ℝ) ≤ 100)
  exact ⟨le_jsRound (by push_cast; linarith), jsRound_le (by push_cast; linarith)⟩

theorem masculinityE_range (e : PointEnv) :
    0 ≤ masculinityE e ∧ masculinityE e ≤ 100 := by
  have a1 := norm_nonneg (jaw_ratioE e) 0.60 0.85
  have a2 := norm_le_100 (jaw_ratioE e) 0.60 0.85
  have b1 := norm_nonneg (face_ratioE e) 0.65 0.90
  have b2 := norm_le_100 (face_ratioE e) 0.65 0.90
  exact ⟨le_jsRound (by push_cast; linarith), jsRound_le (by push_cast; linarith)⟩

theorem calculateSymmetry_range (c l r : Point) :
    -100 ≤ calculateSymmetry c l r ∧ calculateSymmetry c l r ≤ 100 := by
  have h1 := dist_nonneg c l
  have h2 := dist_nonneg c r
  simp only [calculateSymmetry]
  split_ifs with h
  · have hd : |dist c l - dist c r| ≤ dist c l + dist c r := by
      rcases abs_cases (dist c l - dist c r) with ⟨heq, -⟩ | ⟨heq, -⟩ <;> linarith
    have hdiv0 : 0 ≤ |dist c l - dist c r| / ((dist c l + dist c r) / 2) :=
      div_nonneg (abs_nonneg _) (le_of_lt h)
    have hdiv2 : |dist c l - dist c r| / ((dist c l + dist c r) / 2) ≤ 2 := by
      rw [div_le_iff h]
      linarith
    constructor <;> nlinarith
  · norm_num

theorem symmetryE_range (e : PointEnv) : -100 ≤ symmetryE e ∧ symmetryE e ≤ 100 := by
  have s1 := calculateSymmetry_range e.nose_center e.eye_left_outer e.eye_right_outer
  have s2 := calculateSymmetry_range e.nose_center e.cheek_left e.cheek_right
  have s3 := calculateSymmetry_range e.nose_center e.jaw_left e.jaw_right
  exact ⟨le_jsRound (by push_cast; linarith), jsRound_le (by push_cast; linarith)⟩

theorem calculateGoldenRatioScore_range (ratio : ℝ) :
    0 ≤ calculateGoldenRatioScore ratio ∧ calculateGoldenRatioScore ratio ≤ 100 := by
  rw [calculateGoldenRatioScore]
  exact ⟨le_clamp _ 0 100, clamp_le _ (by norm_num)⟩

theorem golden_ratioE_range (e : PointEnv) :
    0 ≤ golden_ratioE e ∧ golden_ratioE e ≤ 100 := by
  have a := calculateGoldenRatioScore_range (face_heightE e / face_widthE e)
  have b := calculateGoldenRatioScore_range
    (dist e.forehead_top e.nose_center / dist e.nose_center e.chin_bottom)
  exact ⟨le_jsRound (by push_cast; linarith [a.1, a.2, b.1, b.2]),
    jsRound_le (by push_cast; linarith [a.1, a.2, b.1, b.2])⟩

theorem maxDevThirdE_nonneg (e : PointEnv) : 0 ≤ maxDevThirdE e :=
  le_trans (abs_nonneg _) (le_max_left _ _)

theorem maxDevFifthE_nonneg (e : PointEnv) : 0 ≤ maxDevFifthE e :=
  le_trans (abs_nonneg _) (le_max_left _ _)

theorem facial_thirdsE_range (e : PointEnv) (hpos : 0 < avgThirdE e) :
    0 ≤ facial_thirdsE e ∧ facial_thirdsE e ≤ 100 := by
  have hdiv : 0 ≤ maxDevThirdE e / avgThirdE e * 300 :=
    mul_nonneg (div_nonneg (maxDevThirdE_nonneg e) (le_of_lt hpos)) (by norm_num)
  have hup : max (0 : ℝ) (100 - maxDevThirdE e / avgThirdE e * 300) ≤ 100 :=
    max_le (by norm_num) (by linarith)
  have hlo : (0 : ℝ) ≤ max 0 (100 - maxDevThirdE e / avgThirdE e * 300) :=
    le_max_left _ _
  exact ⟨le_jsRound (by push_cast; linarith), jsRound_le (by push_cast; linarith)⟩

theorem facial_fifthsE_range (e : PointEnv) (hpos : 0 < avgFifthE e) :
    0 ≤ facial_fifthsE e ∧ facial_fifthsE e ≤ 100 := by
  have hdiv : 0 ≤ maxDevFifthE e / avgFifthE e * 300 :=
    mul_nonneg (div_nonneg (maxDevFifthE_nonneg e) (le_of_lt hpos)) (by norm_num)
  have hup : max (0 : ℝ) (100 - maxDevFifthE e / avgFifthE e * 300) ≤ 100 :=
    max_le (by norm_num) (by linarith)
  have hlo : (0 : ℝ) ≤ max 0 (100 - maxDevFifthE e / avgFifthE e * 300) :=
    le_max_left _ _
  exact ⟨le_jsRound (by push_cast; linarith), jsRound_le (by push_cast; linarith)⟩

theorem eye_scoreE_range (e : PointEnv) : 0 ≤ eye_scoreE e ∧ eye_scoreE e ≤ 100 := by
  have a1 := norm_nonneg (fifth3E e / ((fifth2E e + fifth4E e) / 2)) 0.8 1.2
  have a2 := norm_le_100 (fifth3E e / ((fifth2E e + fifth4E e) / 2)) 0.8 1.2
  have hb : (70 : ℝ) ≤ (if e.eye_left_outer.y < e.eye_left_inner.y ∧
      e.eye_right_outer.y < e.eye_right_inner.y then 100 else 70) ∧
      (if e.eye_left_outer.y < e.eye_left_inner.y ∧
        e.eye_right_outer.y < e.eye_right_inner.y then (100 : ℝ) else 70) ≤ 100 := by
    split_ifs <;> norm_num
  exact ⟨le_jsRound (by push_cast; linarith [hb.1, hb.2]),
    jsRound_le (by push_cast; linarith [hb.1, hb.2])⟩

theorem nose_scoreE_range (e : PointEnv) : 0 ≤ nose_scoreE e ∧ nose_scoreE e ≤ 100 := by
  have a1 := norm_nonneg (dist e.nose_left e.nose_right / dist e.mouth_left e.mouth_right) 0.6 0.9
  have a2 := norm_le_100 (dist e.nose_left e.nose_right / dist e.mouth_left e.mouth_right) 0.6 0.9
  have b1 := norm_nonneg (dist e.nose_left e.nose_right / face_widthE e) 0.20 0.30
  have b2 := norm_le_100 (dist e.nose_left e.nose_right / face_widthE e) 0.20 0.30
  exact ⟨le_jsRound (by push_cast; linarith), jsRound_le (by push_cast; linarith)⟩

theorem overallE_range (e : PointEnv) (q : QualityMetrics)
    (h5 : 0 < avgThirdE e) (h6 : 0 < avgFifthE e) :
    -10 ≤ overallE e q ∧ overallE e q ≤ 100 := by
  have r1 := jawlineE_range e
  have r2 := cheekbonesE_range e
  have r3 := skin_qualityE_range q
  have r4 := masculinityE_range e
  have r5 := symmetryE_range e
  have r6 := golden_ratioE_range e
  have r7 := facial_thirdsE_range e h5
  have r8 := facial_fifthsE_range e h6
  have r9 := eye_scoreE_range e
  have r10 := nose_scoreE_range e
  have c1 : (0 : ℝ) ≤ (jawlineE e : ℝ) ∧ (jawlineE e : ℝ) ≤ 100 := by
    exact_mod_cast r1
  have c2 : (0 : ℝ) ≤ (cheekbonesE e : ℝ) ∧ (cheekbonesE e : ℝ) ≤ 100 := by
    exact_mod_cast r2
  have c3 : (0 : ℝ) ≤ (skin_qualityE q : ℝ) ∧ (skin_qualityE q : ℝ) ≤ 100 := by
    exact_mod_cast r3
  have c4 : (0 : ℝ) ≤ (masculinityE e : ℝ) ∧ (masculinityE e : ℝ) ≤ 100 := by
    exact_mod_cast r4
  have c5 : (-100 : ℝ) ≤ (symmetryE e : ℝ) ∧ (symmetryE e : ℝ) ≤ 100 := by
    exact_mod_cast r5
  have c6 : (0 : ℝ) ≤ (golden_ratioE e : ℝ) ∧ (golden_ratioE e : ℝ) ≤ 100 := by
    exact_mod_cast r6
  have c7 : (0 : ℝ) ≤ (facial_thirdsE e : ℝ) ∧ (facial_thirdsE e : ℝ) ≤ 100 := by
    exact_mod_cast r7
  have c8 : (0 : ℝ) ≤ (facial_fifthsE e : ℝ) ∧ (facial_fifthsE e : ℝ) ≤ 100 := by
    exact_mod_cast r8
  have c9 : (0 : ℝ) ≤ (eye_scoreE e : ℝ) ∧ (eye_scoreE e : ℝ) ≤ 100 := by
    exact_mod_cast r9
  have c10 : (0 : ℝ) ≤ (nose_scoreE e : ℝ) ∧ (nose_scoreE e : ℝ) ≤ 100 := by
    exact_mod_cast r10
  constructor
  · apply le_jsRound
    push_cast
    linarith [c1.1, c2.1, c3.1, c4.1, c5.1, c6.1, c7.1, c8.1, c9.1, c10.1]
  · apply jsRound_le
    push_cast
    linarith [c1.2, c2.2, c3.2, c4.2, c5.2, c6.2, c7.2, c8.2, c9.2, c10.2]

theorem potentialE_range (e : PointEnv) (q : QualityMetrics) :
    0 ≤ potentialE e q ∧ potentialE e q ≤ 100 := by
  have a := le_clamp ((overallE e q : ℝ) + (photo_penaltyE q : ℝ)) 0 100
  have b := clamp_le ((overallE e q : ℝ) + (photo_penaltyE q : ℝ))
    (by norm_num : (0 : ℝ) ≤ 100)
  exact ⟨le_jsRound (by push_cast; linarith), jsRound_le (by push_cast; linarith)⟩

/-- The layout refuting the [0,100] invariant: each symmetry triad has
distances 390 and 10 from the nose bridge (difference 380, average 200), so
every sub-score is `(1 − 1.9)·100 = −90`; all reference distances stay
positive, so no division by zero occurs anywhere in the pipeline. -/
def envC1 : PointEnv :=
  { forehead_top := ⟨0, 0⟩
    chin_bottom := ⟨0, 90⟩
    face_left := ⟨-50, 20⟩
    face_right := ⟨50, 20⟩
    cheek_left := ⟨0, 410⟩
    cheek_right := ⟨0, 30⟩
    jaw_left := ⟨390, 20⟩
    jaw_right := ⟨10, 20⟩
    mouth_bottom := ⟨0, 80⟩
    eye_right_outer := ⟨-10, 20⟩
    eye_right_inner := ⟨-5, 20⟩
    eye_left_inner := ⟨5, 20⟩
    eye_left_outer := ⟨390, 20⟩
    eye_right_top := ⟨-7, 15⟩
    eye_right_bottom := ⟨-7, 25⟩
    eye_left_top := ⟨7, 15⟩
    eye_left_bottom := ⟨7, 25⟩
    nose_center := ⟨0, 20⟩
    nose_base := ⟨0, 30⟩
    nose_tip := ⟨0, 60⟩
    mouth_left := ⟨-20, 75⟩
    mouth_right := ⟨20, 75⟩
    nose_left := ⟨-12, 62⟩
    nose_right := ⟨12, 62⟩ }

/-- C1 counterexample: the engine accepts the 455-point list realizing
`envC1` and returns a result whose symmetry facet is −90, outside [0,100]. -/
theorem c1_counterexample :
    analyzeFaceExtended (toKps envC1) qNice =
      some (analyzeCoreExt envC1 qNice (toKps envC1)) ∧
      (analyzeCoreExt envC1 qNice (toKps envC1)).symmetry = -90 ∧
      (analyzeCoreExt envC1 qNice (toKps envC1)).symmetry < 0 := by
  have s1 : calculateSymmetry envC1.nose_center envC1.eye_left_outer envC1.eye_right_outer
      = -90 := by
    show calculateSymmetry ⟨0, 20⟩ ⟨390, 20⟩ ⟨-10, 20⟩ = -90
    rw [calculateSymmetry_eval _ _ _ 390 10 (by rw [dist_horiz]; norm_num)
      (by rw [dist_horiz]; norm_num) (by norm_num)]
    norm_num
  have s2 : calculateSymmetry envC1.nose_center envC1.cheek_left envC1.cheek_right
      = -90 := by
    show calculateSymmetry ⟨0, 20⟩ ⟨0, 410⟩ ⟨0, 30⟩ = -90
    rw [calculateSymmetry_eval _ _ _ 390 10 (by rw [dist_vert]; norm_num)
      (by rw [dist_vert]; norm_num) (by norm_num)]
    norm_num
  have s3 : calculateSymmetry envC1.nose_center envC1.jaw_left envC1.jaw_right
      = -90 := by
    show calculateSymmetry ⟨0, 20⟩ ⟨390, 20⟩ ⟨10, 20⟩ = -90
    rw [calculateSymmetry_eval _ _ _ 390 10 (by rw [dist_horiz]; norm_num)
      (by rw [dist_horiz]; norm_num) (by norm_num)]
    norm_num
  have hsym : (analyzeCoreExt envC1 qNice (toKps envC1)).symmetry = -90 := by
    show symmetryE envC1 = -90
    rw [symmetryE, s1, s2, s3, jsRound, Int.floor_eq_iff]
    norm_num
  exact ⟨analyzeFaceExtended_toKps envC1 qNice, hsym, by rw [hsym]; norm_num⟩

/-- C1 (amended): for every geometrically non-degenerate input (all reference
distances positive) the facets other than symmetry, and `potential`, are
integers in [0,100]; the symmetry facet lies in [−100,100] and can be
negative, and `overall` lies in [−10,100]. -/
theorem c1_facet_ranges (e : PointEnv) (q : QualityMetrics)
    (h1 : 0 < face_widthE e) (h2 : 0 < face_heightE e) (h3 : 0 < jaw_widthE e)
    (h4 : 0 < dist e.nose_center e.chin_bottom)
    (h5 : 0 < avgThirdE e) (h6 : 0 < avgFifthE e)
    (h7 : 0 < (fifth2E e + fifth4E e) / 2)
    (h8 : 0 < dist e.mouth_left e.mouth_right) :
    (0 ≤ jawlineE e ∧ jawlineE e ≤ 100) ∧
    (0 ≤ cheekbonesE e ∧ cheekbonesE e ≤ 100) ∧
    (0 ≤ skin_qualityE q ∧ skin_qualityE q ≤ 100) ∧
    (0 ≤ masculinityE e ∧ masculinityE e ≤ 100) ∧
    (-100 ≤ symmetryE e ∧ symmetryE e ≤ 100) ∧
    (0 ≤ golden_ratioE e ∧ golden_ratioE e ≤ 100) ∧
    (0 ≤ facial_thirdsE e ∧ facial_thirdsE e ≤ 100) ∧
    (0 ≤ facial_fifthsE e ∧ facial_fifthsE e ≤ 100) ∧
    (0 ≤ eye_scoreE e ∧ eye_scoreE e ≤ 100) ∧
    (0 ≤ nose_scoreE e ∧ nose_scoreE e ≤ 100) ∧
    (-10 ≤ overallE e q ∧ overallE e q ≤ 100) ∧
    (0 ≤ potentialE e q ∧ potentialE e q ≤ 100) :=
  ⟨jawlineE_range e, cheekbonesE_range e, skin_qualityE_range q, masculinityE_range e,
    symmetryE_range e, golden_ratioE_range e, facial_thirdsE_range e h5,
    facial_fifthsE_range e h6, eye_scoreE_range e, nose_scoreE_range e,
    overallE_range e q h5 h6, potentialE_range e q⟩

/-- C1 witness: `envNice` satisfies every non-degeneracy hypothesis, and the
potential lies in [0,100]. -/
theorem c1_witness :
    (0 < face_widthE envNice ∧ 0 < face_heightE envNice ∧ 0 < jaw_widthE envNice ∧
      0 < dist envNice.nose_center envNice.chin_bottom ∧ 0 < avgThirdE envNice ∧
      0 < avgFifthE envNice ∧ 0 < (fifth2E envNice + fifth4E envNice) / 2 ∧
      0 < dist envNice.mouth_left envNice.mouth_right) ∧
    (0 ≤ potentialE envNice qNice ∧ potentialE envNice qNice ≤ 100) := by
  have h1 : 0 < face_widthE envNice := by
    show (0 : ℝ) < dist ⟨-50, 20⟩ ⟨50, 20⟩
    rw [dist_horiz]; norm_num
  have h2 : 0 < face_heightE envNice := by
    show (0 : ℝ) < dist ⟨0, 0⟩ ⟨0, 90⟩
    rw [dist_vert]; norm_num
  have h3 : 0 < jaw_widthE envNice := by
    show (0 : ℝ) < dist ⟨-30, 70⟩ ⟨30, 70⟩
    rw [dist_horiz]; norm_num
  have h4 : 0 < dist envNice.nose_center envNice.chin_bottom := by
    show (0 : ℝ) < dist ⟨0, 40⟩ ⟨0, 90⟩
    rw [dist_vert]; norm_num
  have h5 : 0 < avgThirdE envNice := by
    have hu : upperThirdE envNice = 30 := by
      show dist ⟨0, 0⟩ ⟨0, 30⟩ = 30
      rw [dist_vert]; norm_num
    have hm : midThirdE envNice = 30 := by
      show dist ⟨0, 30⟩ ⟨0, 60⟩ = 30
      rw [dist_vert]; norm_num
    have hl : lowerThirdE envNice = 30 := by
      show dist ⟨0, 60⟩ ⟨0, 90⟩ = 30
      rw [dist_vert]; norm_num
    rw [avgThirdE, hu, hm, hl]; norm_num
  have f2 : fifth2E envNice = 20 := by
    show dist ⟨-35, 20⟩ ⟨-15, 20⟩ = 20
    rw [dist_horiz]; norm_num
  have f4 : fifth4E envNice = 20 := by
    show dist ⟨15, 20⟩ ⟨35, 20⟩ = 20
    rw [dist_horiz]; norm_num
  have h6 : 0 < avgFifthE envNice := by
    have f1 : fifth1E envNice = 15 := by
      show dist ⟨-50, 20⟩ ⟨-35, 20⟩ = 15
      rw [dist_horiz]; norm_num
    have f3 : fifth3E envNice = 30 := by
      show dist ⟨-15, 20⟩ ⟨15, 20⟩ = 30
      rw [dist_horiz]; norm_num
    have f5 : fifth5E envNice = 15 := by
      show dist ⟨35, 20⟩ ⟨50, 20⟩ = 15
      rw [dist_horiz]; norm_num
    rw [avgFifthE, f1, f2, f3, f4, f5]; norm_num
  have h7 : 0 < (fifth2E envNice + fifth4E envNice) / 2 := by
    rw [f2, f4]; norm_num
  have h8 : 0 < dist envNice.mouth_left envNice.mouth_right := by
    show (0 : ℝ) < dist ⟨-20, 75⟩ ⟨20, 75⟩
    rw [dist_horiz]; norm_num
  exact ⟨⟨h1, h2, h3, h4, h5, h6, h7, h8⟩,
    (c1_facet_ranges envNice qNice h1 h2 h3 h4 h5 h6 h7 h8).2.2.2.2.2.2.2.2.2.2.2⟩

/-- The degenerate layout for C2: the two face-edge landmarks coincide, so
`face_width = 0` and the source divides by zero (producing NaN/Infinity in
JavaScript) instead of failing. -/
def envC2 : PointEnv := { envNice with face_left := ⟨50, 20⟩ }

/-- C2: at a degenerate input whose face-edge landmarks coincide
(`face_width = 0`), the analysis still returns a result — no
`DegenerateGeometryError` (or any failure) occurs anywhere in the source. -/
theorem c2_degenerate_returns_result :
    dist envC2.face_left envC2.face_right = 0 ∧
      analyzeFaceExtended (toKps envC2) qNice =
        some (analyzeCoreExt envC2 qNice (toKps envC2)) := by
  constructor
  · show dist ⟨50, 20⟩ ⟨50, 20⟩ = 0
    rw [dist_horiz]; norm_num
  · exact analyzeFaceExtended_toKps envC2 qNice

end FaceRate
